import Mathlib

/-!
Verification development for the digital-land/local-plan-extractor repository.

The files `bin/download-documents.py` and `bin/find-local-plan.py` are embedded
shallowly below: bytes are `List Nat` (each < 256), the collection directory is
an explicit record of finite maps, network and wall-clock effects are oracle
parameters, and the side effects of a download are reified as a trace of
`Event`s applied to the file-system state.
-/

namespace LocalPlan

/-- Does the list `l` start with the list `p`? (Python startswith on sequences.) -/
def listStarts : List Nat → List Nat → Bool
  | [], _ => true
  | _ :: _, [] => false
  | p :: ps, x :: xs => p == x && listStarts ps xs

/-- Does `l` contain `n` as a contiguous sublist? (Python `in` on bytes.) -/
def listHasSub (n : List Nat) : List Nat → Bool
  | [] => n.isEmpty
  | x :: xs => listStarts n (x :: xs) || listHasSub n xs

/-- Does the character list `l` start with the character list `p`? -/
def charsStart : List Char → List Char → Bool
  | [], _ => true
  | _ :: _, [] => false
  | p :: ps, x :: xs => p == x && charsStart ps xs

/-- Does the character list `l` contain `n` as a contiguous sublist? -/
def charsHaveSub (n : List Char) : List Char → Bool
  | [] => n.isEmpty
  | x :: xs => charsStart n (x :: xs) || charsHaveSub n xs

/-- Python `needle in hay` on strings. -/
def strContains (hay needle : String) : Bool :=
  charsHaveSub needle.data hay.data

/-- Python `hay.startswith(p)`. -/
def strStarts (hay p : String) : Bool :=
  charsStart p.data hay.data

/-- Python `hay.endswith(s)`. -/
def strEnds (hay s : String) : Bool :=
  charsStart s.data.reverse hay.data.reverse

/-- Python `hay.endswith(tuple)`: true when any listed ending matches. -/
def strEndsAny (hay : String) (ss : List String) : Bool :=
  ss.any (fun s => strEnds hay s)

/-- Python `s.split(sep)` scan on character lists: `cur` is the reversed
current field, `fuel` bounds the recursion (each step consumes at least one
character, so the list length suffices). -/
def charsSplitOnAux (sep : List Char) : Nat → List Char → List Char → List (List Char)
  | _, [], cur => [cur.reverse]
  | 0, l, cur => [cur.reverse ++ l]
  | fuel + 1, x :: xs, cur =>
    if charsStart sep (x :: xs) then
      cur.reverse :: charsSplitOnAux sep fuel ((x :: xs).drop sep.length) []
    else
      charsSplitOnAux sep fuel xs (x :: cur)

/-- Python `s.split(sep)` on character lists (non-empty separator; splits at
every non-overlapping occurrence, left to right). -/
def charsSplitOn (sep l : List Char) : List (List Char) :=
  if sep.isEmpty then [l] else charsSplitOnAux sep l.length l []

/-- Python `s.split(sep)` on strings. -/
def strSplit (s sep : String) : List String :=
  (charsSplitOn sep.data s.data).map String.mk

/-- Python `s.replace(pat, repl)` scan on character lists, fuelled like
`charsSplitOnAux`. -/
def charsReplaceAux (pat repl : List Char) : Nat → List Char → List Char
  | _, [] => []
  | 0, l => l
  | fuel + 1, x :: xs =>
    if charsStart pat (x :: xs) then
      repl ++ charsReplaceAux pat repl fuel ((x :: xs).drop pat.length)
    else
      x :: charsReplaceAux pat repl fuel xs

/-- Python `s.replace(pat, repl)` for a non-empty pattern. -/
def strReplace (s pat repl : String) : String :=
  if pat.data.isEmpty then s
  else String.mk (charsReplaceAux pat.data repl.data s.data.length s.data)

/-- Python `s.strip()`: drop whitespace from both ends. -/
def strTrim (s : String) : String :=
  String.mk ((s.data.dropWhile Char.isWhitespace).reverse.dropWhile
    Char.isWhitespace).reverse

/-- Python `s.lower()` (ASCII case folding, all the source needs). -/
def strLower (s : String) : String :=
  String.mk (s.data.map Char.toLower)

/-- Python `s[:n]` by characters. -/
def strTake (s : String) (n : Nat) : String :=
  String.mk (s.data.take n)

/-- Python `sep.join(parts)`. -/
def strIntercalate (sep : String) (ps : List String) : String :=
  String.mk (List.intercalate sep.data (ps.map String.data))

/-- UTF-8 encoding of one unicode code point (Python str.encode building block). -/
def utf8EncodeChar (c : Char) : List Nat :=
  let n := c.toNat
  if n < 128 then [n]
  else if n < 2048 then [192 + n / 64, 128 + n % 64]
  else if n < 65536 then [224 + n / 4096, 128 + n / 64 % 64, 128 + n % 64]
  else [240 + n / 262144, 128 + n / 4096 % 64, 128 + n / 64 % 64, 128 + n % 64]

/-- UTF-8 encoding of a string, as a byte list (Python `text.encode("utf-8")`). -/
def utf8Encode (s : String) : List Nat :=
  s.data.flatMap utf8EncodeChar

/-- 32-bit truncation. -/
def w32 (x : Nat) : Nat := x % 4294967296

/-- 32-bit left rotation. -/
def rotl32 (x n : Nat) : Nat := w32 ((x <<< n) ||| (x >>> (32 - n)))

/-- 32-bit right rotation. -/
def rotr32 (x n : Nat) : Nat := w32 ((x >>> n) ||| (x <<< (32 - n)))

/-- 32-bit bitwise complement. -/
def not32 (x : Nat) : Nat := x ^^^ 4294967295

/-- Big-endian bytes (8 of them) of a 64-bit length value. -/
def lenBytes64 (n : Nat) : List Nat :=
  (List.range 8).map (fun i => n >>> ((7 - i) * 8) % 256)

/-- Merkle–Damgård padding shared by SHA-1 and SHA-256: append `128`, zeros to
55 mod 64, then the bit length as 8 big-endian bytes. -/
def shaPad (msg : List Nat) : List Nat :=
  msg ++ [128] ++ List.replicate ((119 - msg.length % 64) % 64) 0
      ++ lenBytes64 (msg.length * 8)

/-- Split a byte list into 64-byte blocks; `fuel` bounds the recursion (each
step consumes at least one element, so the list length suffices). -/
def blocks64Go : Nat → List Nat → List (List Nat)
  | _, [] => []
  | 0, l => [l]
  | fuel + 1, l@(_ :: _) => l.take 64 :: blocks64Go fuel (l.drop 64)

/-- Split a byte list into 64-byte blocks. -/
def blocks64 (l : List Nat) : List (List Nat) :=
  blocks64Go l.length l

/-- Pack consecutive 4-byte groups into big-endian 32-bit words. -/
def words32 : List Nat → List Nat
  | a :: b :: c :: d :: rest => (a * 16777216 + b * 65536 + c * 256 + d) :: words32 rest
  | _ => []

/-- One hexadecimal digit (lowercase, as Python hexdigest). -/
def hexDigit (n : Nat) : Char :=
  if n < 10 then Char.ofNat (48 + n) else Char.ofNat (87 + n)

/-- A 32-bit word as 8 lowercase hex digits. -/
def hex8 (x : Nat) : String :=
  String.mk ((List.range 8).map (fun i => hexDigit (x >>> ((7 - i) * 4) % 16)))

/-- Hex digest of a word list (Python hashlib hexdigest). -/
def hexDigest (ws : List Nat) : String :=
  String.join (ws.map hex8)

/-- SHA-256 round constants. -/
def sha256K : List Nat :=
  [1116352408, 1899447441, 3049323471, 3921009573, 961987163, 1508970993,
   2453635748, 2870763221, 3624381080, 310598401, 607225278, 1426881987,
   1925078388, 2162078206, 2614888103, 3248222580, 3835390401, 4022224774,
   264347078, 604807628, 770255983, 1249150122, 1555081692, 1996064986,
   2554220882, 2821834349, 2952996808, 3210313671, 3336571891, 3584528711,
   113926993, 338241895, 666307205, 773529912, 1294757372, 1396182291,
   1695183700, 1986661051, 2177026350, 2456956037, 2730485921, 2820302411,
   3259730800, 3345764771, 3516065817, 3600352804, 4094571909, 275423344,
   430227734, 506948616, 659060556, 883997877, 958139571, 1322822218,
   1537002063, 1747873779, 1955562222, 2024104815, 2227730452, 2361852424,
   2428436474, 2756734187, 3204031479, 3329325298]

/-- SHA-256 message schedule: extend 16 words to 64. -/
def sha256Schedule (w16 : List Nat) : List Nat :=
  (List.range 48).foldl
    (fun w i =>
      let s0 := rotr32 (w.getD (i + 1) 0) 7 ^^^ rotr32 (w.getD (i + 1) 0) 18 ^^^
                (w.getD (i + 1) 0) >>> 3
      let s1 := rotr32 (w.getD (i + 14) 0) 17 ^^^ rotr32 (w.getD (i + 14) 0) 19 ^^^
                (w.getD (i + 14) 0) >>> 10
      w ++ [w32 (w.getD i 0 + s0 + w.getD (i + 9) 0 + s1)])
    w16

/-- SHA-256 compression of one 64-byte block into the running state. -/
def sha256Block (h : List Nat) (block : List Nat) : List Nat :=
  let w := sha256Schedule (words32 block)
  let s :=
    (List.range 64).foldl
      (fun (st : Nat × Nat × Nat × Nat × Nat × Nat × Nat × Nat) i =>
        let (a, b, c, d, e, f, g, hh) := st
        let s1 := rotr32 e 6 ^^^ rotr32 e 11 ^^^ rotr32 e 25
        let ch := (e &&& f) ^^^ (not32 e &&& g)
        let t1 := w32 (hh + s1 + ch + sha256K.getD i 0 + w.getD i 0)
        let s0 := rotr32 a 2 ^^^ rotr32 a 13 ^^^ rotr32 a 22
        let mj := (a &&& b) ^^^ (a &&& c) ^^^ (b &&& c)
        let t2 := w32 (s0 + mj)
        (w32 (t1 + t2), a, b, c, w32 (d + t1), e, f, g))
      (h.getD 0 0, h.getD 1 0, h.getD 2 0, h.getD 3 0,
       h.getD 4 0, h.getD 5 0, h.getD 6 0, h.getD 7 0)
  let (a, b, c, d, e, f, g, hh) := s
  [w32 (h.getD 0 0 + a), w32 (h.getD 1 0 + b), w32 (h.getD 2 0 + c),
   w32 (h.getD 3 0 + d), w32 (h.getD 4 0 + e), w32 (h.getD 5 0 + f),
   w32 (h.getD 6 0 + g), w32 (h.getD 7 0 + hh)]

/-- SHA-256 of a byte list, as its eight 32-bit state words. -/
def sha256Words (msg : List Nat) : List Nat :=
  (blocks64 (shaPad msg)).foldl sha256Block
    [1779033703, 3144134277, 1013904242, 2773480762,
     1359893119, 2600822924, 528734635, 1541459225]

/-- `calculate_sha256(text)` from `bin/download-documents.py`: SHA-256 hex digest
of the UTF-8 encoding of `text` (used for the endpoint field). -/
def calculate_sha256 (text : String) : String :=
  hexDigest (sha256Words (utf8Encode text))

/-- SHA-1 compression of one 64-byte block into the running state. -/
def sha1Block (h : List Nat) (block : List Nat) : List Nat :=
  let w :=
    (List.range 64).foldl
      (fun w i =>
        w ++ [rotl32 (w.getD (i + 13) 0 ^^^ w.getD (i + 8) 0 ^^^
                      w.getD (i + 2) 0 ^^^ w.getD i 0) 1])
      (words32 block)
  let s :=
    (List.range 80).foldl
      (fun (st : Nat × Nat × Nat × Nat × Nat) i =>
        let (a, b, c, d, e) := st
        let f :=
          if i < 20 then (b &&& c) ||| (not32 b &&& d)
          else if i < 40 then b ^^^ c ^^^ d
          else if i < 60 then (b &&& c) ||| (b &&& d) ||| (c &&& d)
          else b ^^^ c ^^^ d
        let k :=
          if i < 20 then 1518500249
          else if i < 40 then 1859775393
          else if i < 60 then 2400959708
          else 3395469782
        (w32 (rotl32 a 5 + f + e + k + w.getD i 0), a, rotl32 b 30, c, d))
      (h.getD 0 0, h.getD 1 0, h.getD 2 0, h.getD 3 0, h.getD 4 0)
  let (a, b, c, d, e) := s
  [w32 (h.getD 0 0 + a), w32 (h.getD 1 0 + b), w32 (h.getD 2 0 + c),
   w32 (h.getD 3 0 + d), w32 (h.getD 4 0 + e)]

/-- SHA-1 of a byte list, as its five 32-bit state words. -/
def sha1Words (msg : List Nat) : List Nat :=
  (blocks64 (shaPad msg)).foldl sha1Block
    [1732584193, 4023233417, 2562383102, 271733878, 3285377520]

/-- `calculate_sha1(content)` from `bin/download-documents.py`: SHA-1 hex digest
of the content bytes (used as the resource hash). -/
def calculate_sha1 (content : List Nat) : String :=
  hexDigest (sha1Words content)

/-! ## The collection directory as explicit state

`collection/resource/<sha1>` holds content-addressed blobs,
`collection/log/<endpoint>.json` holds one ledger record per URL hash, and
`collection/endpoint/<endpoint>.<suffix>` holds the hard-linked aliases.
Each is a finite map keyed by the file name within its directory. -/

/-- One ledger record, the JSON object written to `collection/log/<endpooint>.json`
by `download_document` (field names match the JSON keys). -/
structure LogEntry where
  resource : String
  endpoint_url : String
  entry_date : String
  status : String
  elapsed : String
  content_type : String
  bytes : String
deriving DecidableEq, Repr

/-- Point update of a string-keyed map. -/
def upd {α : Type} (f : String → Option α) (k : String) (v : α) : String → Option α :=
  fun k' => if k' = k then some v else f k'

/-- State of the collection directory. -/
structure FS where
  resource : String → Option (List Nat)
  log : String → Option LogEntry
  aliases : String → Option String

/-- The empty collection directory. -/
def emptyFS : FS := ⟨fun _ => none, fun _ => none, fun _ => none⟩

/-- A side effect of `download_document` on the collection directory. The
`renameFile` constructor exists so that the write-to-temp-then-rename
discipline required by the spec is expressible; whether the embedded code
ever emits it is settled by the theorems below. -/
inductive Event where
  | writeResource (hash : String) (content : List Nat)
  | writeLog (endpoint : String) (entry : LogEntry)
  | linkAlias (path : String) (hash : String)
  | renameFile (src dst : String)
deriving DecidableEq, Repr

/-- Apply one completed event to the directory state. -/
def applyEvent (fs : FS) : Event → FS
  | .writeResource h c => { fs with resource := upd fs.resource h c }
  | .writeLog ep en => { fs with log := upd fs.log ep en }
  | .linkAlias p h => { fs with aliases := upd fs.aliases p h }
  | .renameFile src dst =>
      { fs with resource := fun k =>
          if k = dst then fs.resource src
          else if k = src then none
          else fs.resource k }

/-- Apply a trace of events in order. -/
def applyEvents (fs : FS) (evs : List Event) : FS :=
  evs.foldl applyEvent fs

/-- Apply an event that was interrupted partway: a resource write cut off
after `k` bytes leaves the first `k` bytes visible under its file name;
interruption of the other events is not modelled (none of the claims need it). -/
def applyEventPartial (fs : FS) (e : Event) (k : Nat) : FS :=
  match e with
  | .writeResource h c => { fs with resource := upd fs.resource h (c.take k) }
  | _ => fs

/-- Directory state after a run aborted during event `i` of the trace, with
that event cut off after `k` bytes. -/
def crashRun (fs : FS) (evs : List Event) (i k : Nat) : FS :=
  match evs.get? i with
  | none => applyEvents fs evs
  | some e => applyEventPartial (applyEvents fs (evs.take i)) e k

/-- Outcome of the one `urllib.request.urlopen` call `download_document` can
make: a body with status and Content-Type header, an `urllib.error.HTTPError`
with a status code, or any other exception (transport failure). -/
inductive NetResult where
  | ok (body : List Nat) (status : Nat) (contentType : String)
  | httpError (code : Nat)
  | err
deriving DecidableEq, Repr

/-- Embeds the lookup of the Python `mimetypes` standard-library module
(`guess_extension`): a fixed MIME-type-to-extension table. Only types outside
`mime_to_ext` below ever reach it; the entries are environment-dependent and no
claim depends on them. -/
def mimetypes_guess_extension (mime : String) : Option String :=
  [("image/gif", ".gif"), ("image/svg+xml", ".svg"), ("text/csv", ".csv"),
   ("application/json", ".json"), ("text/xml", ".xml")].lookup mime

/-- The `mime_to_ext` table of `detect_file_suffix`. -/
def mime_to_ext : List (String × String) :=
  [("application/pdf", "pdf"),
   ("application/vnd.openxmlformats-officedocument.wordprocessingml.document", "docx"),
   ("application/msword", "doc"),
   ("application/vnd.ms-excel", "xls"),
   ("application/vnd.openxmlformats-officedocument.spreadsheetml.sheet", "xlsx"),
   ("text/html", "html"),
   ("text/plain", "txt"),
   ("application/zip", "zip"),
   ("image/jpeg", "jpg"),
   ("image/png", "png")]

/-- `detect_file_suffix(content, content_type, url)` from
`bin/download-documents.py`: suffix from the Content-Type header first, then
magic bytes, then the URL path extension, defaulting to `bin`.
Byte lists in ASCII: `[37,80,68,70]` is `%PDF`, `[80,75,3,4]` is the ZIP
signature, `[119,111,114,100,47]` is `word/`, `[120,108,47]` is `xl/`,
`[208,207,17,224]` is the OLE2 signature, `[60,33,68,79,67,84,89,80,69]` is
`<!DOCTYPE`, `[60,104,116,109,108]` is `<html`. -/
def detect_file_suffix (content : List Nat) (content_type url : String) : String :=
  let fromCT : Option String :=
    if content_type ≠ "" then
      let mime_type := strTrim ((strSplit content_type ";").headD "")
      match (mime_to_ext.lookup mime_type) with
      | some ext => some ext
      | none =>
        match mimetypes_guess_extension mime_type with
        | some ext => some (String.mk (ext.data.dropWhile (· == '.')))
        | none => none
    else none
  match fromCT with
  | some ext => ext
  | none =>
    let fromMagic : Option String :=
      if content ≠ [] then
        if listStarts [37, 80, 68, 70] content then some "pdf"
        else if listStarts [80, 75, 3, 4] content then
          if listHasSub [119, 111, 114, 100, 47] (content.take 2000) then some "docx"
          else if listHasSub [120, 108, 47] (content.take 2000) then some "xlsx"
          else some "zip"
        else if listStarts [208, 207, 17, 224] content then some "doc"
        else if listStarts [60, 33, 68, 79, 67, 84, 89, 80, 69] content
             || listStarts [60, 104, 116, 109, 108] content then some "html"
        else none
      else none
    match fromMagic with
    | some ext => ext
    | none =>
      let fromURL : Option String :=
        if url ≠ "" then
          let url_path := (strSplit url "?").headD ""
          if strContains url_path "." then
            let ext := strLower ((strSplit url_path ".").getLastD "")
            if ["pdf", "doc", "docx", "xls", "xlsx", "html", "txt", "zip",
                "jpg", "png"].contains ext then some ext
            else none
          else none
        else none
      match fromURL with
      | some ext => ext
      | none => "bin"

/-- `create_endpoint_hardlink(endpoint, resource_hash, content, content_type, url)`
from `bin/download-documents.py`: removes any alias already at the target name
and hard-links `collection/endpoint/<endpoint>.<suffix>` to the resource file.
Its net effect on the directory is the single `linkAlias` event returned. -/
def create_endpoint_hardlink (endpoint resource_hash : String) (content : List Nat)
    (content_type url : String) : Event :=
  .linkAlias (endpoint ++ "." ++ detect_file_suffix content content_type url) resource_hash

/-- `download_document(url, endpoint)` from `bin/download-documents.py`.
`net` is the network (the one possible `urlopen` call), `entry_date` and
`elapsed` stand for the wall clock readings formatted by the code. Returns the
value returned by the Python function, the trace of file-system events the call
performs, and the number of network requests it makes; the directory state
after the call is `applyEvents fs` of the trace. -/
def download_document (net : String → NetResult) (entry_date elapsed : String)
    (url endpoint : String) (fs : FS) : Option LogEntry × List Event × Nat :=
  if url = "" then (none, [], 0)
  else if !strStarts url "http://" && !strStarts url "https://" then (none, [], 0)
  else
    match fs.log endpoint with
    | some log_entry =>
        let evs :=
          if log_entry.resource ≠ "" then
            match fs.resource log_entry.resource with
            | some content =>
                [create_endpoint_hardlink endpoint log_entry.resource content
                  log_entry.content_type url]
            | none => []
          else []
        (some log_entry, evs, 0)
    | none =>
      match net url with
      | .ok content status content_type =>
          let resource_hash := calculate_sha1 content
          let log_entry : LogEntry :=
            { resource := resource_hash, endpoint_url := url,
              entry_date := entry_date, status := toString status,
              elapsed := elapsed, content_type := content_type,
              bytes := toString content.length }
          (some log_entry,
           [.writeResource resource_hash content,
            .writeLog endpoint log_entry,
            create_endpoint_hardlink endpoint resource_hash content content_type url],
           1)
      | .httpError code =>
          let log_entry : LogEntry :=
            { resource := "", endpoint_url := url, entry_date := entry_date,
              status := toString code, elapsed := elapsed, content_type := "",
              bytes := "0" }
          (some log_entry, [.writeLog endpoint log_entry], 1)
      | .err =>
          let log_entry : LogEntry :=
            { resource := "", endpoint_url := url, entry_date := entry_date,
              status := "error", elapsed := elapsed, content_type := "",
              bytes := "0" }
          (some log_entry, [.writeLog endpoint log_entry], 1)

/-! ## URL parsing

`find-local-plan.py` uses `urllib.parse.urlparse` and `urljoin`. The two
library functions are embedded below for the absolute `http`/`https` bases the
script feeds them; dot segments are not collapsed (none of the claims touch
them). -/

/-- Split at the first occurrence of `sep`; the separator is dropped. When
`sep` does not occur the second component is empty (Python split with
maxsplit 1, as `urlparse` uses for `#` and `?`). -/
def splitOnce (s sep : String) : String × String :=
  match strSplit s sep with
  | [] => (s, "")
  | [x] => (x, "")
  | x :: rest => (x, strIntercalate sep rest)

/-- Characters allowed after the first in a URL scheme. -/
def isSchemeChar (c : Char) : Bool :=
  c.isAlphanum || c == '+' || c == '-' || c == '.'

/-- Split a leading `scheme:` off a URL, as `urlparse` does: the part before
the first colon counts as a scheme when it starts with a letter and continues
with scheme characters; it is returned lowercased. -/
def splitScheme (s : String) : String × String :=
  match strSplit s ":" with
  | x :: rest =>
      if rest ≠ [] then
        match x.data with
        | c :: cs =>
            if c.isAlpha && cs.all isSchemeChar then
              (strLower x, strIntercalate ":" rest)
            else ("", s)
        | [] => ("", s)
      else ("", s)
  | [] => ("", s)

/-- The components `urlparse` returns (the `params` component is never used by
the script and is omitted). -/
structure URLParts where
  scheme : String
  netloc : String
  path : String
  query : String
  fragment : String
deriving DecidableEq, Repr

/-- Embeds `urllib.parse.urlparse`: scheme, then `//netloc` up to the next
`/`, `?` or `#`, then fragment split at the first `#`, then query split at the
first `?`. -/
def urlparse (s : String) : URLParts :=
  let (scheme, rest) := splitScheme s
  let (netloc, rest) :=
    if strStarts rest "//" then
      let r := rest.data.drop 2
      (String.mk (r.takeWhile fun c => !(c == '/' || c == '?' || c == '#')),
       String.mk (r.dropWhile fun c => !(c == '/' || c == '?' || c == '#')))
    else ("", rest)
  let (rest, fragment) := splitOnce rest "#"
  let (path, query) := splitOnce rest "?"
  ⟨scheme, netloc, path, query, fragment⟩

/-- Embeds `urllib.parse.urljoin` for the cases the script exercises: an
absolute href wins outright, a scheme-relative, root-relative, fragment or
query href is resolved against the base, and any other href replaces the last
segment of the base path. Dot segments are not collapsed. -/
def urljoin (base href : String) : String :=
  if href = "" then base
  else
    let bp := urlparse base
    let hp := urlparse href
    if hp.scheme ≠ "" then href
    else if strStarts href "//" then bp.scheme ++ ":" ++ href
    else if strStarts href "#" then (splitOnce base "#").1 ++ href
    else if strStarts href "?" then (splitOnce (splitOnce base "#").1 "?").1 ++ href
    else if strStarts href "/" then bp.scheme ++ "://" ++ bp.netloc ++ href
    else
      let dir := String.mk (bp.path.data.reverse.dropWhile (· ≠ '/')).reverse
      let dir := if dir = "" then "/" else dir
      bp.scheme ++ "://" ++ bp.netloc ++ dir ++ href

/-- The URL normalisation inside `extract_document_links`: rebuild the parsed
URL as `scheme://netloc` + path, appending the query only when one is present;
the fragment is dropped. -/
def normalize_url (full_url : String) : String :=
  let parsed := urlparse full_url
  let n := parsed.scheme ++ "://" ++ parsed.netloc ++ parsed.path
  if parsed.query ≠ "" then n ++ "?" ++ parsed.query else n

/-! ## Link extraction and classification (`find-local-plan.py`)

HTML parsing itself (BeautifulSoup) is outside the embedding: a page is
represented by the list of its anchors, each an href with its stripped link
text, exactly what the `soup.find_all("a", href=True)` loop iterates over. -/

/-- One anchor of a page: its href attribute and stripped link text. -/
structure Link where
  href : String
  text : String
deriving DecidableEq, Repr

/-- One entry of the document-candidate list built by
`extract_document_links` (keys `url`, `text`, `document-type`, `source-url`). -/
structure DocLink where
  url : String
  text : String
  document_type : String
  source_url : String
deriving DecidableEq, Repr

/-- The classification table of `classify_document_type`, in source order
(most specific first; first match wins). -/
def classifications : List (String × List String) :=
  [("inspectors-report",
    ["inspector report", "inspector\x27s report", "examination report",
     "inspectors final report", "inspector\x27s final report"]),
   ("examination-hearing-statement",
    ["examination hearing", "hearing statement", "matter statement",
     "examination document"]),
   ("statement-of-common-ground",
    ["statement of common ground", "socg", "common ground statement"]),
   ("main-modifications",
    ["main modifications", "proposed main modifications",
     "schedule of main modifications"]),
   ("adoption-statement",
    ["adoption statement", "adoption consultation statement",
     "statement of adoption"]),
   ("consultation-statement",
    ["consultation statement", "statement of consultation",
     "regulation 22 statement"]),
   ("representation-statement",
    ["representation statement", "summary of representations",
     "consultation responses"]),
   ("sustainability-appraisal",
    ["sustainability appraisal", "sa report", "sa addendum", "sa screening",
     "sa scoping", "sa non-technical summary"]),
   ("strategic-environmental-assessment",
    ["strategic environmental assessment", "sea", "environmental report"]),
   ("habitats-regulations-assessment",
    ["habitats regulations assessment", "hra", "appropriate assessment",
     "habitat assessment"]),
   ("equalities-impact-assessment",
    ["equalities impact assessment", "eia", "equality impact",
     "equalities assessment"]),
   ("health-impact-assessment",
    ["health impact assessment", "hia", "health assessment"]),
   ("strategic-housing-market-assessment",
    ["shma", "strategic housing market assessment", "housing market assessment",
     "housing needs assessment"]),
   ("strategic-housing-land-availability",
    ["shlaa", "strategic housing land availability", "housing land availability",
     "helaa"]),
   ("housing-delivery-test",
    ["housing delivery test", "hdt", "housing delivery action plan"]),
   ("gypsy-and-traveller-assessment",
    ["gypsy and traveller", "gtaa", "traveller accommodation assessment"]),
   ("infrastructure-delivery-plan",
    ["infrastructure delivery plan", "idp", "infrastructure delivery"]),
   ("transport-assessment",
    ["transport assessment", "transport study", "transport strategy",
     "local transport plan"]),
   ("strategic-flood-risk-assessment",
    ["sfra", "strategic flood risk assessment", "flood risk assessment",
     "level 1 sfra", "level 2 sfra"]),
   ("water-cycle-study", ["water cycle study", "wcs", "water resources"]),
   ("viability-assessment",
    ["viability assessment", "viability study", "whole plan viability",
     "cil viability", "viability appraisal"]),
   ("financial-viability-study", ["financial viability", "economic viability"]),
   ("employment-land-review",
    ["employment land review", "elr", "employment land study",
     "employment evidence"]),
   ("retail-and-town-centre-study",
    ["retail study", "town centre study", "retail assessment", "town centres"]),
   ("economic-development-strategy",
    ["economic development", "economic strategy", "economic assessment"]),
   ("landscape-character-assessment",
    ["landscape character assessment", "lca", "landscape assessment"]),
   ("conservation-area-appraisal",
    ["conservation area appraisal", "conservation area assessment"]),
   ("urban-design-framework",
    ["urban design framework", "design code", "design guide"]),
   ("green-and-blue-infrastructure",
    ["green infrastructure", "blue infrastructure", "gi strategy",
     "open space strategy"]),
   ("local-development-scheme",
    ["local development scheme", "lds", "local plan timetable"]),
   ("statement-of-community-involvement",
    ["statement of community involvement", "sci", "community involvement"]),
   ("authority-monitoring-report",
    ["authority monitoring report", "amr", "monitoring report",
     "annual monitoring"]),
   ("policies-map",
    ["policies map", "policy map", "proposals map", "key diagram"]),
   ("area-action-plan", ["area action plan", "aap"]),
   ("neighbourhood-plan",
    ["neighbourhood plan", "neighbourhood development plan", "ndp"]),
   ("supplementary-planning-document",
    ["supplementary planning document", "spd", "supplementary guidance"]),
   ("site-allocations",
    ["site allocations", "site allocation", "allocations dpd",
     "allocations development plan", "site assessment"]),
   ("development-management-policies",
    ["development management policies", "development management dpd",
     "dm policies"]),
   ("core-strategy", ["core strategy", "cs dpd", "strategic policies"]),
   ("minerals-and-waste-plan",
    ["minerals and waste", "minerals local plan", "waste local plan",
     "minerals plan"]),
   ("joint-strategic-plan",
    ["joint strategic plan", "joint plan", "strategic plan"]),
   ("local-plan-regulation-19",
    ["regulation 19", "publication version", "pre-submission",
     "publication draft"]),
   ("local-plan-regulation-18",
    ["regulation 18", "preferred options", "draft plan", "consultation draft"]),
   ("local-plan-submission",
    ["submission version", "submission draft", "submitted plan"]),
   ("local-plan-adopted", ["adopted local plan", "adopted plan", "final plan"]),
   ("local-plan-review",
    ["local plan review", "review of local plan", "partial review"]),
   ("local-plan",
    ["local plan", "development plan document", "dpd", "city plan",
     "borough plan", "district plan"])]

/-- `classify_document_type(url, link_text)`: the first category whose keyword
occurs in the lowercased `url + " " + link_text`, defaulting to `local-plan`. -/
def classify_document_type (url link_text : String) : String :=
  let combined := strLower (url ++ " " ++ link_text)
  match classifications.find? (fun p => p.2.any fun kw => strContains combined kw) with
  | some p => p.1
  | none => "local-plan"

/-- The `is_document` test of `extract_document_links`: file extensions,
download-handler shapes, or `pdf`/`download` in the link text. -/
def is_document_link (href link_text : String) : Bool :=
  let hl := strLower href
  strEnds hl ".pdf" || strEnds hl ".doc" || strEnds hl ".docx"
  || strContains hl ".pdf" || strContains hl ".doc"
  || strContains hl "/downloads/" || strContains hl "/download/"
  || strContains hl "download.cfm" || strContains hl "download.aspx"
  || strContains hl "download.php" || strContains hl "getfile.aspx"
  || strContains hl "getdocument.aspx" || strContains hl "viewfile.aspx"
  || strContains hl "/file/" || strContains hl "/document/"
  || strContains hl "/docs/"
  || strContains (strLower link_text) "pdf" || strContains (strLower link_text) "download"

/-- The `doc_keywords` vocabulary of `extract_document_links`. -/
def doc_keywords : List String :=
  ["local plan", "core strategy", "adopted", "submission", "regulation",
   "dpd", "spd", "sustainability", "appraisal", "assessment", "viability",
   "evidence", "inspector", "examination", "shma", "sfra", "policies map",
   "site allocation", "area action plan", "development plan"]

/-- The `listing_page_indicators` list built inside `extract_document_links`
for a given normalised URL, with the conditional entries already resolved and
the `None` entries removed, exactly as the source builds it. -/
def listing_page_indicators (normalized_url : String) : List String :=
  [some "/info/",
   if !strContains normalized_url "/downloads/file/" then some "/downloads/" else none,
   some "-documents",
   some "_documents",
   if !(strEnds normalized_url ".pdf" || strContains normalized_url "/documents/d/")
     then some "/documents/" else none,
   some "/planning-policy-plan-making",
   if !strEndsAny normalized_url [".pdf", ".doc", ".docx"]
     then some "/supplementary-planning-documents-spds" else none].filterMap id

/-- The `is_listing_page` test: some resolved indicator occurs in the URL. -/
def is_listing_page (normalized_url : String) : Bool :=
  (listing_page_indicators normalized_url).any fun i => strContains normalized_url i

/-- The `is_clearly_file` override of `extract_document_links`. -/
def is_clearly_file (normalized_url : String) : Bool :=
  strEndsAny normalized_url [".pdf", ".doc", ".docx"]
  || strContains normalized_url "/downloads/file/"
  || strContains normalized_url "/documents/d/"
  || strContains normalized_url "download.cfm?"
  || strContains normalized_url "download.aspx?"
  || strContains normalized_url "getfile.aspx?"

/-- The `normalized_url` computed for one anchor inside
`extract_document_links`: `normalize_url(urljoin(url, href))`. -/
def candidate_url (url : String) (l : Link) : String :=
  normalize_url (urljoin url l.href)

/-- The anchor loop of `extract_document_links`, with `acc` the `doc_links`
list accumulated so far (the locals `full_url`/`normalized_url` of the source
are folded into `candidate_url`). -/
def extract_document_links_go (url : String) : List Link → List DocLink → List DocLink
  | [], acc => acc
  | l :: ls, acc =>
    if is_document_link l.href l.text
        || doc_keywords.any (fun kw => strContains (strLower l.text) kw) then
      if strStarts (candidate_url url l) "http"
         && !acc.any (fun d => d.url == candidate_url url l) then
        if is_listing_page (candidate_url url l)
            && !is_clearly_file (candidate_url url l) then
          extract_document_links_go url ls acc
        else
          extract_document_links_go url ls
            (acc ++ [⟨candidate_url url l, l.text,
                      classify_document_type (candidate_url url l) l.text, url⟩])
      else extract_document_links_go url ls acc
    else extract_document_links_go url ls acc

/-- `extract_document_links(url, html_content)` from `bin/find-local-plan.py`,
over the anchors of the page. -/
def extract_document_links (url : String) (links : List Link) : List DocLink :=
  extract_document_links_go url links []

/-! ## The two-tier page fetcher (`fetch_page_content`) -/

/-- Outcome of one HTTP GET as `requests`/`cloudscraper` report it: a response
with status, Content-Type header and body text, or a raised exception
(timeout, connection error, and so on). A 4xx/5xx status arrives as a
response; `raise_for_status()` is part of the embedded control flow below. -/
inductive FetchOutcome where
  | resp (status : Nat) (contentType : String) (body : String)
  | exn
deriving DecidableEq, Repr

/-- The whitespace cleanup `fetch_page_content` applies to the extracted text:
split into lines, strip each, drop empties, rejoin. -/
def clean_lines (text : String) : String :=
  strIntercalate "\n" (((strSplit text "\n").map strTrim).filter (fun l => l ≠ ""))

/-- The response-processing tail of `fetch_page_content`: reject non-HTML
Content-Types, extract and clean the text, truncate to `max_length`, and
require more than 200 characters. `soupText` stands for the BeautifulSoup
parse-and-get-text step (script and style elements removed), which is outside
the embedding. -/
def process_response (soupText : String → String) (max_length : Nat)
    (contentType body : String) : String × Bool :=
  if !strContains (strLower contentType) "text/html" then ("", false)
  else
    let text := clean_lines (soupText body)
    let text := if text.length > max_length then strTake text max_length else text
    if text.length > 200 then (text, true) else ("", false)

/-- `fetch_page_content(url, max_length)` from `bin/find-local-plan.py`.
`net1` is the plain `requests.get` tier, `net2` the `cloudscraper` tier; the
second component counts the requests issued through `net2`. Tier 1 responses
go through `raise_for_status()`: a 403 triggers the cloudscraper retry, any
other 4xx/5xx or exception fails the fetch. -/
def fetch_page_content (soupText : String → String) (net1 net2 : String → FetchOutcome)
    (url : String) (max_length : Nat := 50000) : (String × Bool) × Nat :=
  match net1 url with
  | .exn => (("", false), 0)
  | .resp status contentType body =>
    if 400 ≤ status ∧ status < 600 then
      if status = 403 then
        match net2 url with
        | .exn => (("", false), 1)
        | .resp status2 contentType2 body2 =>
          if 400 ≤ status2 ∧ status2 < 600 then (("", false), 1)
          else (process_response soupText max_length contentType2 body2, 1)
      else (("", false), 0)
    else (process_response soupText max_length contentType body, 0)

/-! ## Candidate URL generation (`construct_likely_urls`) -/

/-- One candidate produced by `construct_likely_urls` (keys `title`, `url`,
`snippet`; the configured joint-plan entries carry no snippet, embedded as the
empty string). -/
structure SearchResult where
  title : String
  url : String
  snippet : String
deriving DecidableEq, Repr

/-- One entry of `var/joint-local-plans.json` (read-only configuration input):
the optional `joint-plan-website` and the `joint-plan-name`. -/
structure JointPlanInfo where
  joint_plan_website : Option String
  joint_plan_name : String
deriving DecidableEq, Repr

/-- The `council_specific_paths` table of `construct_likely_urls`. -/
def council_specific_paths : List (String × List String) :=
  [("local-authority:BAE",
    ["/planning-and-building-control/planning-policy/bassetlaw-local-plan-2020-2038/bassetlaw-local-plan-2020-2038/",
     "/planning-and-building-control/planning-policy"]),
   ("local-authority:BKM",
    ["/planning-and-building-control/planning-policy/local-planning-guidance/local-development-plans",
     "/planning-and-building-control/planning-policy/local-planning-guidance"]),
   ("local-authority:BIR",
    ["/info/20008/planning_and_development",
     "/info/20054/local_plan_documents",
     "/downloads/file/5433/adopted_birmingham_development_plan_2031",
     "/downloads/20054/local_plan_documents"]),
   ("local-authority:TWH",
    ["/lgnl/planning_and_building_control/planning_policy_guidance/Local_plan/local_plan.aspx",
     "/lgnl/planning_and_building_control/planning_policy_guidance/Emerging-Draft-Local-Plan.aspx",
     "/lgnl/planning_and_building_control/planning_policy_guidance/emerging-draft-local-plan.aspx",
     "/lgnl/planning_and_building_control/planning_policy_guidance/new-local-plan.aspx"]),
   ("local-authority:ADU", ["/adur-ldf", "/adur-local-plan"]),
   ("local-authority:FEN", ["/newlocalplan", "/developmentplan"]),
   ("local-authority:BNE",
    ["/planning-and-building-control/planning-policies-and-local-plans",
     "/planning-and-building-control/planning-policies-and-local-plan/barnet-local-plan-2021-2036"]),
   ("local-authority:BDG",
    ["/planning-building-control-and-local-land-charges/planning-guidance-and-policies/local-plan"]),
   ("local-authority:BNH",
    ["/planning/planning-policy/city-plan-part-one",
     "/planning/planning-policy/city-plan-part-two"]),
   ("local-authority:BOS",
    ["/services/p/planning-policy/planning-policy-documents/development-plan"]),
   ("local-authority:BRM",
    ["/council/policy/planning-policies-and-other-information/adopted-local-development-plan/the-bromsgrove-district-plan-2011-2030/adopted-bromsgrove-district-plan-2011-2030/"]),
   ("local-authority:BUN", ["/planning/planning-policies/burnleys-local-plan/"]),
   ("local-authority:CRW", ["/planning/planning-policy/local-plan/about-local-plan"]),
   ("local-authority:DAC",
    ["/planning-development/planning-strategic-planning/new-single-local-plan"]),
   ("local-authority:DAL",
    ["/planning-and-building-regs/planning/planning-and-environmental-policy/"]),
   ("local-authority:DEB",
    ["/planning/planning-policy-and-local-plan/local-plan/local-plan-information-and-adoption"]),
   ("local-authority:DUR", ["/cdp"]),
   ("local-authority:EAL", ["/info/201164/local_plan"]),
   ("local-authority:EAT",
    ["/planning-and-building/planning-policy-and-implementation/local-plan"]),
   ("local-authority:ECA",
    ["/planning-and-building-control/planning-policy-and-guidance/adopted-local-plan/local-plan"]),
   ("local-authority:ELI", ["/localplan2018"]),
   ("local-authority:ENF",
    ["/services/planning/adopted-plans", "/services/planning/new-enfield-local-plan"]),
   ("local-authority:ERY",
    ["/planning-permission-and-building-control/planning-policy-and-the-local-plan/east-riding-local-plan-update/"]),
   ("local-authority:GAT",
    ["/article/3001/Local-Plan",
     "/article/3251/Core-Strategy-and-Urban-Core-Plan-for-Gateshead-and-Newcastle-2010-2030"]),
   ("local-authority:GED",
    ["/resident/planningandbuildingcontrol/planningpolicy/adoptedlocalplanandpolicydocuments/"]),
   ("local-authority:GLO",
    ["/planning-development/planning-policy/adopted-development-plan/"]),
   ("local-authority:GRY", ["/article/2489/Current-Local-Plan"]),
   ("local-authority:HAL", ["/Pages/planning/policyguidance/planningplans.aspx"]),
   ("local-authority:HOR", ["/planning/local-plan/read-the-current-local-plan"]),
   ("local-authority:KHL", ["/downloads/download/15/local-plan"]),
   ("local-authority:KWL",
    ["/planning-and-development/planning-policy/adopted-documents/"]),
   ("local-authority:LUT",
    ["/Page/Show/Environment/Planning/Regional%20and%20local%20planning/Pages/default.aspx"]),
   ("local-authority:MAL", ["/homepage/7031/emerging_local_plan"]),
   ("local-authority:MDB",
    ["/planning-and-development/planning-policy/publication-local-plan/"]),
   ("local-authority:MIK", ["/planning-and-building/developingmk/planmk"]),
   ("local-authority:NEC", ["/planning-policy/current-development-plan"]),
   ("local-authority:NTY", ["/residents/planning/planning-policy/local-plan"]),
   ("local-authority:OLD",
    ["/info/201229/current_local_planning_policy/2934/the_adopted_local_plan_in_oldham"]),
   ("local-authority:PEN", ["/info/20072/planning_policies/273/local_plan"]),
   ("local-authority:POR",
    ["/services/development-and-planning/planning-policy/portsmouth-local-plan/"]),
   ("local-authority:REI",
    ["/info/20271/local_plan", "/info/20271/local_plan/1101/development_plan"]),
   ("local-authority:RUS", ["/planning-growth/planning-policy/local-plan/"]),
   ("local-authority:SLG", ["/planning-policy/local-development-plan-slough"]),
   ("local-authority:SND", ["/article/15978/Core-Strategy-and-Development-Plan"]),
   ("local-authority:STY", ["/article/3663/Local-Plan"]),
   ("local-authority:TAN",
    ["/Planning-and-building/Planning-strategies-and-policies/Adopted-development-plan"]),
   ("local-authority:UTT", ["/article/4878/Planning-Policy-and-the-Local-Plan"]),
   ("local-authority:WGN",
    ["/Council/Strategies-Plans-and-Policies/Planning/Local-plan/CoreStrategy.aspx"]),
   ("national-park-authority:Q27178932",
    ["/park-authority/living-and-working/planning-policy/local-planning-policy-pre-boundary-extension/"]),
   ("national-park-authority:Q4972284",
    ["/planning/planning-policies/local-plan-for-the-broads"])]

/-- The `generic_paths` list of `construct_likely_urls`, in source order. -/
def generic_paths : List String :=
  ["/planning",
   "/local-plan",
   "/adopted-local-plan",
   "/localplan",
   "/planning/local-plan",
   "/planning/planning-policy",
   "/planning/planningpolicies",
   "/planning/planning-policies",
   "/planning/planning-policy/local-plan",
   "/planning/planning-policy/existing-local-plans",
   "/planning/policy/local-plan",
   "/planning-policy/local-plan",
   "/planning-policy",
   "/planning-policy-core-strategy",
   "/planningpolicy",
   "/planning-and-regeneration/local-plans",
   "/planning/strategic-planning/local-plan",
   "/planning/strategic-planning",
   "/services/planning/planning-policy",
   "/planning-and-building-control",
   "/planning-and-building-control/planning-policy",
   "/planning-applications/planning-policy",
   "/planning-services/planning-policy",
   "/emerging-local-plan",
   "/emerging-plan",
   "/draft-local-plan",
   "/draft-plan",
   "/new-local-plan",
   "/planning/emerging-local-plan",
   "/planning/draft-local-plan",
   "/planning/new-local-plan",
   "/planning/planning-policy/emerging-local-plan",
   "/planning-policy/emerging-local-plan",
   "/lgnl/planning_and_building_control/planning_policy_guidance/local_plan",
   "/home/planning-development/planning-strategic-planning",
   "/home/planning-development/planning-strategic-planning/new-local-plan",
   "/planning/strategic-planning/emerging-local-plan",
   "/media",
   "/media/documents",
   "/media/downloads",
   "/media/files",
   "/media/uploads",
   "/documents",
   "/downloads",
   "/files",
   "/uploads",
   ""]

/-- The council-type suffixes stripped from the organisation name when
guessing domains. -/
def council_suffixes : List String :=
  [" borough council", " city council", " district council", " county council",
   " council", " metropolitan borough"]

/-- The guessed base name: lowercase the display name, strip the council-type
suffixes in order, trim, and remove spaces. -/
def guessed_base_name (org_name : String) : String :=
  strReplace
    (strTrim (council_suffixes.foldl (fun s suf => strReplace s suf "") (strLower org_name)))
    " " ""

/-- The four guessed fallback domains derived from the display name. -/
def fallback_domains (org_name : String) : List String :=
  let base_name := guessed_base_name org_name
  ["www." ++ base_name ++ ".gov.uk",
   base_name ++ ".gov.uk",
   "www." ++ base_name ++ "council.gov.uk",
   base_name ++ "council.gov.uk"]

/-- The path list used for every domain: council-specific paths first when the
organisation has them, then the generic paths. -/
def paths_for (org_code : Option String) : List String :=
  (match org_code with
   | some code =>
       if code ≠ "" then (council_specific_paths.lookup code).getD [] else []
   | none => []) ++ generic_paths

/-- Candidate URLs for one domain: every path, in order. -/
def domain_urls (org_name domain : String) (paths : List String) : List SearchResult :=
  paths.map fun path =>
    ⟨org_name ++ " Local Plan", "https://" ++ domain ++ path,
     "Constructed URL for " ++ org_name⟩

/-- `construct_likely_urls(org_name, official_website, org_code)` from
`bin/find-local-plan.py`. `joint_plans` is the mapping loaded from
`var/joint-local-plans.json`. Domain order: joint-plan domain (when
configured), then the official-website domain (when new), then the four
guessed domains (each when new); the configured joint-plan URL itself is
prepended to the generated list. -/
def construct_likely_urls (joint_plans : String → Option JointPlanInfo)
    (org_name : String) (official_website : Option String)
    (org_code : Option String) : List SearchResult :=
  let (domains, configured_urls) :=
    match org_code with
    | some code =>
        if code ≠ "" then
          match joint_plans code with
          | some plan_info =>
              match plan_info.joint_plan_website with
              | some plan_website =>
                  if plan_website ≠ "" then
                    let plan_domain := (urlparse plan_website).netloc
                    if plan_domain ≠ "" then
                      ([plan_domain],
                       [(⟨"Joint Local Plan: " ++ plan_info.joint_plan_name,
                          plan_website, ""⟩ : SearchResult)])
                    else ([], [])
                  else ([], [])
              | none => ([], [])
          | none => ([], [])
        else ([], [])
    | none => ([], [])
  let domains :=
    match official_website with
    | some w =>
        let official_domain := (urlparse w).netloc
        if official_domain ≠ "" && !domains.contains official_domain then
          domains ++ [official_domain]
        else domains
    | none => domains
  let domains :=
    (fallback_domains org_name).foldl
      (fun ds d => if ds.contains d then ds else ds ++ [d]) domains
  let paths := paths_for org_code
  configured_urls ++ domains.flatMap fun domain => domain_urls org_name domain paths

/-! ## Response validation in `find_local_plan` -/

/-- The `is_likely_webpage` test `find_local_plan` applies to every
document-url returned by the extraction service: no known document extension
and no known download-handler shape. -/
def is_likely_webpage (url : String) : Bool :=
  !strEndsAny url [".pdf", ".doc", ".docx"]
  && !strContains (strLower url) "download.cfm"
  && !strContains (strLower url) "download.aspx"
  && !strContains (strLower url) "download.php"
  && !strContains (strLower url) "getfile"
  && !strContains (strLower url) "/downloads/file/"
  && !strContains (strLower url) "/documents/d/"
  && !strContains (strLower url) ".pdf"

/-- One entry of a `documents` array after validation: the possibly cleared
`document-url` and the `endpoint` field added from its SHA-256. -/
structure DocRecord where
  document_url : String
  endpoint : String
deriving DecidableEq, Repr

/-- Validation of one `documents` entry in `find_local_plan`: clear the
document-url when it looks like a webpage, then set `endpoint` to the SHA-256
of the (possibly cleared) value. -/
def validate_doc (url : String) : DocRecord :=
  let url := if is_likely_webpage url then "" else url
  ⟨url, calculate_sha256 url⟩

/-- A structured plan record as returned by the extraction service, reduced to
the fields the validation step touches: the top-level `document-url` and the
`document-url` of each entry of `documents`. -/
structure PlanRecord where
  document_url : String
  documents : List String
deriving DecidableEq, Repr

/-- The validation step of `find_local_plan` on one plan record (the array
response path): a non-empty top-level document-url is cleared when it looks
like a webpage, and every `documents` entry is validated and given its
endpoint. -/
def validate_plan (p : PlanRecord) : String × List DocRecord :=
  (if p.document_url ≠ "" && is_likely_webpage p.document_url then ""
   else p.document_url,
   p.documents.map validate_doc)

/-- The collection state after one `download_document` call: its event trace
applied to the starting state. -/
def afterDownload (net : String → NetResult) (entry_date elapsed url endpoint : String)
    (fs : FS) : FS :=
  applyEvents fs (download_document net entry_date elapsed url endpoint fs).2.1

/-! ## Concrete fixtures used by witnesses and counterexamples -/

/-- A recorded failure entry (empty resource) used by the C1 witness. -/
def recFailC1 : LogEntry :=
  ⟨"", "https://www.x.gov.uk/plan.pdf", "2024-01-01T00:00:00Z", "404", "0.100", "", "0"⟩

/-- A collection state already holding `recFailC1` under endpoint `ep`. -/
def fsC1 : FS := { emptyFS with log := upd emptyFS.log "ep" recFailC1 }

/-- A network answering every URL with a 3-byte body (used by C8). -/
def netC8 : String → NetResult := fun _ => .ok [10, 20, 30] 200 "application/pdf"

/-- The event trace of one successful download against `netC8`. -/
def evsC8 : List Event :=
  (download_document netC8 "2024-01-01T00:00:00Z" "0.1"
    "https://www.x.gov.uk/d.pdf" "ep" emptyFS).2.1

/-- A fetch tier answering every URL with HTTP 403 (anti-bot block). -/
def net403 : String → FetchOutcome := fun _ => .resp 403 "" ""

/-- A 300-character page body. -/
def body300 : String := String.mk (List.replicate 300 'a')

/-- A fetch tier answering every URL with HTTP 200 and a PDF payload. -/
def netPdf200 : String → FetchOutcome := fun _ => .resp 200 "application/pdf" body300

/-- A fetch tier answering every URL with HTTP 200 and an HTML payload. -/
def netHtml200 : String → FetchOutcome := fun _ => .resp 200 "text/html" body300

/-- A joint-plan configuration mapping one organisation to a configured plan
website (used by the C6 witness). -/
def jpJointC6 : String → Option JointPlanInfo := fun c =>
  if c == "local-authority:EXA" then
    some ⟨some "https://www.commonplan.org/plan", "Common Plan"⟩
  else none

end LocalPlan

namespace LocalPlan

/-! ## Theorems -/

/-- An http or https URL is not the empty string. -/
theorem url_ne_empty_of_http {url : String}
    (h : strStarts url "http://" = true ∨ strStarts url "https://" = true) :
    ¬ url = "" := by
  rintro rfl
  rcases h with h | h <;> exact absurd h (by decide)

/-- C1: if a ledger record for the endpoint hash of an http(s) URL already
exists, `download_document` short-circuits on it: it returns the stored record
(also when that record is a recorded failure with an empty resource, which is
reused and not retried), makes no network request, and leaves both the ledger
and the resource store unchanged. -/
theorem download_document_short_circuits (net : String → NetResult)
    (entry_date elapsed url endpoint : String) (fs : FS) (rec : LogEntry)
    (hhttp : strStarts url "http://" = true ∨ strStarts url "https://" = true)
    (hlog : fs.log endpoint = some rec) :
    (download_document net entry_date elapsed url endpoint fs).1 = some rec ∧
    (download_document net entry_date elapsed url endpoint fs).2.2 = 0 ∧
    (applyEvents fs (download_document net entry_date elapsed url endpoint fs).2.1).log
      = fs.log ∧
    (applyEvents fs (download_document net entry_date elapsed url endpoint fs).2.1).resource
      = fs.resource := by
  have hu := url_ne_empty_of_http hhttp
  have hcond : (!strStarts url "http://" && !strStarts url "https://") = false := by
    rcases hhttp with h | h <;> simp [h]
  simp only [download_document, if_neg hu, hcond, Bool.false_eq_true, if_false, hlog]
  refine ⟨trivial, trivial, ?_⟩
  by_cases hr : rec.resource = ""
  · simp [hr, applyEvents]
  · simp only [if_pos (by simpa using hr)]
    cases hres : fs.resource rec.resource <;>
      simp [applyEvents, applyEvent, create_endpoint_hardlink]

/-- C1 witness: re-requesting the failed URL returns the stored failure record,
makes no network call, and changes neither ledger nor resource store. -/
theorem download_document_short_circuits_witness :
    (download_document (fun _ => .err) "2024-01-02T00:00:00Z" "0.2"
      "https://www.x.gov.uk/plan.pdf" "ep" fsC1).1 = some recFailC1 ∧
    (download_document (fun _ => .err) "2024-01-02T00:00:00Z" "0.2"
      "https://www.x.gov.uk/plan.pdf" "ep" fsC1).2.2 = 0 ∧
    (applyEvents fsC1 (download_document (fun _ => .err) "2024-01-02T00:00:00Z" "0.2"
      "https://www.x.gov.uk/plan.pdf" "ep" fsC1).2.1).log = fsC1.log ∧
    (applyEvents fsC1 (download_document (fun _ => .err) "2024-01-02T00:00:00Z" "0.2"
      "https://www.x.gov.uk/plan.pdf" "ep" fsC1).2.1).resource = fsC1.resource :=
  download_document_short_circuits (fun _ => .err) "2024-01-02T00:00:00Z" "0.2"
    "https://www.x.gov.uk/plan.pdf" "ep" fsC1 recFailC1
    (Or.inr (by decide)) (by decide)

/-- C9: an empty URL, or one whose scheme is neither `http://` nor `https://`,
makes `download_document` return `None` with no network call and no event at
all — no ledger record, no resource file, no alias — whereas an http(s) URL
that fails with an HTTP error does get a ledger record written. -/
theorem download_document_rejects_non_http (net : String → NetResult)
    (entry_date elapsed url endpoint : String) (fs : FS)
    (h : url = "" ∨ (strStarts url "http://" = false ∧ strStarts url "https://" = false)) :
    download_document net entry_date elapsed url endpoint fs = (none, [], 0) ∧
    (∀ url2 endpoint2 code,
      (strStarts url2 "http://" = true ∨ strStarts url2 "https://" = true) →
      fs.log endpoint2 = none → net url2 = .httpError code →
      ∃ e, download_document net entry_date elapsed url2 endpoint2 fs
            = (some e, [.writeLog endpoint2 e], 1) ∧ e.resource = "") := by
  constructor
  · rcases h with rfl | ⟨h1, h2⟩
    · simp [download_document]
    · simp [download_document, h1, h2]
  · intro url2 endpoint2 code hhttp hlog hnet
    have hu := url_ne_empty_of_http hhttp
    have hcond : (!strStarts url2 "http://" && !strStarts url2 "https://") = false := by
      rcases hhttp with h' | h' <;> simp [h']
    simp only [download_document, if_neg hu, hcond, Bool.false_eq_true, if_false,
      hlog, hnet]
    exact ⟨_, rfl, rfl⟩

/-- C9 witness: a non-HTTP ArcGIS-style URL is skipped with no trace, while an
http URL answered with HTTP 404 gets a failure ledger record. -/
theorem download_document_rejects_non_http_witness :
    download_document (fun _ => .httpError 404) "2024-01-01T00:00:00Z" "0.1"
      "arcgis://maps/webmap" "ep1" emptyFS = (none, [], 0) ∧
    (∃ e, download_document (fun _ => .httpError 404) "2024-01-01T00:00:00Z" "0.1"
      "https://www.x.gov.uk/plan.pdf" "ep2" emptyFS
        = (some e, [.writeLog "ep2" e], 1) ∧ e.resource = "") :=
  have h := download_document_rejects_non_http (fun _ => .httpError 404)
    "2024-01-01T00:00:00Z" "0.1" "arcgis://maps/webmap" "ep1" emptyFS
    (Or.inr (by decide))
  ⟨h.1, h.2 "https://www.x.gov.uk/plan.pdf" "ep2" 404 (Or.inr (by decide)) rfl rfl⟩

/-- C4 counterexample: content beginning with `%PDF` (`[37,80,68,70,...]`) but
declared as `text/html` gets suffix `html`, not `pdf` — the Content-Type table
takes priority over the magic bytes, so the claim as stated is false. -/
theorem detect_pdf_ct_priority_counterexample :
    detect_file_suffix [37, 80, 68, 70, 45, 49, 46, 52] "text/html"
      "https://www.x.gov.uk/plan" = "html" ∧
    listStarts [37, 80, 68, 70] [37, 80, 68, 70, 45, 49, 46, 52] = true ∧
    create_endpoint_hardlink "ep" "res" [37, 80, 68, 70, 45, 49, 46, 52]
      "text/html" "https://www.x.gov.uk/plan" = .linkAlias "ep.html" "res" := by
  decide

/-- C4 (amended): for content beginning with `%PDF`, when the declared
content-type is empty the suffix is `pdf` for every URL, and the alias is
created at `<endpoint>.pdf`; a recognised non-empty content-type takes
priority instead. -/
theorem detect_pdf_magic_empty_ct (content : List Nat)
    (url endpoint resource_hash : String)
    (h : listStarts [37, 80, 68, 70] content = true) :
    detect_file_suffix content "" url = "pdf" ∧
    create_endpoint_hardlink endpoint resource_hash content "" url
      = .linkAlias (endpoint ++ ".pdf") resource_hash := by
  have hne : content ≠ [] := by
    cases content with
    | nil => exact absurd h (by decide)
    | cons a l => simp
  have h1 : detect_file_suffix content "" url = "pdf" := by
    simp [detect_file_suffix, hne, h]
  refine ⟨h1, ?_⟩
  simp only [create_endpoint_hardlink, h1]
  rw [String.append_assoc]
  rfl

/-- C4 witness: a `%PDF-1.4` body with empty content-type yields suffix `pdf`
and alias `ep.pdf`. -/
theorem detect_pdf_magic_empty_ct_witness :
    detect_file_suffix [37, 80, 68, 70, 45, 49, 46, 52] ""
      "https://www.x.gov.uk/plan" = "pdf" ∧
    create_endpoint_hardlink "ep" "res" [37, 80, 68, 70, 45, 49, 46, 52] ""
      "https://www.x.gov.uk/plan" = .linkAlias "ep.pdf" "res" :=
  detect_pdf_magic_empty_ct [37, 80, 68, 70, 45, 49, 46, 52]
    "https://www.x.gov.uk/plan" "ep" "res" (by decide)

/-- C7: the validation step of `find_local_plan` clears every document-url
that fails the extension/download-handler test: a non-empty top-level
document-url that looks like a webpage becomes empty, each `documents` entry
is validated positionally (cleared when webpage-like, kept otherwise) with its
endpoint recomputed as the SHA-256 of the value it ends up with, and after
validation every document-url is either empty or passes the test. -/
theorem validate_plan_clears_untraceable (p : PlanRecord) :
    ((p.document_url ≠ "" ∧ is_likely_webpage p.document_url = true) →
      (validate_plan p).1 = "") ∧
    (∀ (i : Nat) (u : String), p.documents[i]? = some u →
      (validate_plan p).2[i]? = some (validate_doc u) ∧
      (is_likely_webpage u = true →
        (validate_plan p).2[i]? = some (⟨"", calculate_sha256 ""⟩ : DocRecord)) ∧
      (is_likely_webpage u = false →
        (validate_plan p).2[i]? = some (⟨u, calculate_sha256 u⟩ : DocRecord))) ∧
    (∀ d ∈ (validate_plan p).2,
      d.document_url = "" ∨ is_likely_webpage d.document_url = false) := by
  refine ⟨fun ⟨h1, h2⟩ => by simp [validate_plan, h1, h2], ?_, ?_⟩
  · intro i u hi
    have hget : (validate_plan p).2[i]? = some (validate_doc u) := by
      simp [validate_plan, List.getElem?_map, hi]
    refine ⟨hget, fun hw => ?_, fun hw => ?_⟩
    · rw [hget]; simp [validate_doc, hw]
    · rw [hget]; simp [validate_doc, hw]
  · intro d hd
    simp only [validate_plan, List.mem_map] at hd
    obtain ⟨u, _, rfl⟩ := hd
    by_cases hw : is_likely_webpage u = true
    · left; simp [validate_doc, hw]
    · right; simp only [Bool.not_eq_true] at hw; simp [validate_doc, hw]

/-- C7 witness: a webpage-style URL in the `documents` array is cleared and
re-hashed as the empty string, while a direct PDF URL is kept. -/
theorem validate_plan_clears_untraceable_witness :
    (validate_plan ⟨"https://www.x.gov.uk/local-plan",
        ["https://www.x.gov.uk/planning-policy",
         "https://www.x.gov.uk/downloads/file/1/plan.pdf"]⟩).1 = "" ∧
    (validate_plan ⟨"https://www.x.gov.uk/local-plan",
        ["https://www.x.gov.uk/planning-policy",
         "https://www.x.gov.uk/downloads/file/1/plan.pdf"]⟩).2[0]?
      = some (⟨"", calculate_sha256 ""⟩ : DocRecord) ∧
    (validate_plan ⟨"https://www.x.gov.uk/local-plan",
        ["https://www.x.gov.uk/planning-policy",
         "https://www.x.gov.uk/downloads/file/1/plan.pdf"]⟩).2[1]?
      = some (⟨"https://www.x.gov.uk/downloads/file/1/plan.pdf",
          calculate_sha256 "https://www.x.gov.uk/downloads/file/1/plan.pdf"⟩ : DocRecord) :=
  have h := validate_plan_clears_untraceable
    ⟨"https://www.x.gov.uk/local-plan",
     ["https://www.x.gov.uk/planning-policy",
      "https://www.x.gov.uk/downloads/file/1/plan.pdf"]⟩
  ⟨h.1 ⟨by decide, by decide⟩,
   ((h.2.1 0 "https://www.x.gov.uk/planning-policy" (by decide)).2.1 (by decide)),
   ((h.2.1 1 "https://www.x.gov.uk/downloads/file/1/plan.pdf" (by decide)).2.2 (by decide))⟩

set_option maxRecDepth 4000 in
/-- C8 counterexample: with the 3-byte body `[10,20,30]`, aborting the run one
byte into the resource write (event 0 of the trace) leaves the partial file
`[10]` visible under the final content hash — there is no temporary name and
no rename event in the trace, so the claimed atomicity fails. -/
theorem resource_write_not_atomic_counterexample :
    (crashRun emptyFS evsC8 0 1).resource (calculate_sha1 [10, 20, 30]) = some [10] ∧
    ([10] : List Nat) ≠ [10, 20, 30] ∧
    evsC8.all (fun e => match e with | .renameFile _ _ => false | _ => true) = true := by
  decide

/-- C8 (amended): a successful `download_document` stores the body by writing
directly to the file named by the final content hash — its trace contains no
rename event and every resource write in it is to `calculate_sha1 body` with
the full body — and a write interrupted after `k` bytes leaves the `k`-byte
prefix visible under that final hash. -/
theorem resource_write_direct_no_rename (net : String → NetResult)
    (entry_date elapsed url endpoint : String) (fs : FS)
    (body : List Nat) (status : Nat) (ct : String)
    (hhttp : strStarts url "http://" = true ∨ strStarts url "https://" = true)
    (hlog : fs.log endpoint = none)
    (hnet : net url = .ok body status ct) :
    (∀ src dst, Event.renameFile src dst
        ∉ (download_document net entry_date elapsed url endpoint fs).2.1) ∧
    (∀ h c, Event.writeResource h c
        ∈ (download_document net entry_date elapsed url endpoint fs).2.1 →
        h = calculate_sha1 body ∧ c = body) ∧
    (∀ k, (crashRun fs (download_document net entry_date elapsed url endpoint fs).2.1
        0 k).resource (calculate_sha1 body) = some (body.take k)) := by
  have hu := url_ne_empty_of_http hhttp
  have hcond : (!strStarts url "http://" && !strStarts url "https://") = false := by
    rcases hhttp with h' | h' <;> simp [h']
  have hevs : (download_document net entry_date elapsed url endpoint fs).2.1 =
      [.writeResource (calculate_sha1 body) body,
       .writeLog endpoint
         { resource := calculate_sha1 body, endpoint_url := url,
           entry_date := entry_date, status := toString status,
           elapsed := elapsed, content_type := ct,
           bytes := toString body.length },
       create_endpoint_hardlink endpoint (calculate_sha1 body) body ct url] := by
    simp only [download_document, if_neg hu, hcond, Bool.false_eq_true, if_false,
      hlog, hnet]
  rw [hevs]
  refine ⟨?_, ?_, ?_⟩
  · intro src dst hmem
    simp [create_endpoint_hardlink] at hmem
  · intro h c hmem
    simp [create_endpoint_hardlink] at hmem
    exact ⟨hmem.1, hmem.2⟩
  · intro k
    simp [crashRun, applyEvents, applyEventPartial, upd]

/-- C8 witness: the amended statement at the concrete `netC8` download. -/
theorem resource_write_direct_no_rename_witness :
    (∀ src dst, Event.renameFile src dst
        ∉ (download_document netC8 "2024-01-01T00:00:00Z" "0.1"
            "https://www.x.gov.uk/d.pdf" "ep" emptyFS).2.1) ∧
    (∀ h c, Event.writeResource h c
        ∈ (download_document netC8 "2024-01-01T00:00:00Z" "0.1"
            "https://www.x.gov.uk/d.pdf" "ep" emptyFS).2.1 →
        h = calculate_sha1 [10, 20, 30] ∧ c = [10, 20, 30]) ∧
    (∀ k, (crashRun emptyFS (download_document netC8 "2024-01-01T00:00:00Z" "0.1"
        "https://www.x.gov.uk/d.pdf" "ep" emptyFS).2.1 0 k).resource
          (calculate_sha1 [10, 20, 30]) = some (List.take k [10, 20, 30])) :=
  resource_write_direct_no_rename netC8 "2024-01-01T00:00:00Z" "0.1"
    "https://www.x.gov.uk/d.pdf" "ep" emptyFS [10, 20, 30] 200 "application/pdf"
    (Or.inr (by decide)) rfl rfl

/-- One successful fresh download: returns a record whose resource field is the
SHA-1 of the body, makes one request, and the state afterwards has exactly the
new ledger record and the body stored under its content hash. -/
theorem download_document_success_state (net : String → NetResult)
    (entry_date elapsed url endpoint : String) (fs : FS)
    (body : List Nat) (status : Nat) (ct : String)
    (hhttp : strStarts url "http://" = true ∨ strStarts url "https://" = true)
    (hlog : fs.log endpoint = none)
    (hnet : net url = .ok body status ct) :
    ∃ e : LogEntry,
      (download_document net entry_date elapsed url endpoint fs).1 = some e ∧
      e.resource = calculate_sha1 body ∧
      (download_document net entry_date elapsed url endpoint fs).2.2 = 1 ∧
      (afterDownload net entry_date elapsed url endpoint fs).log
        = upd fs.log endpoint e ∧
      (afterDownload net entry_date elapsed url endpoint fs).resource
        = upd fs.resource (calculate_sha1 body) body := by
  have hu := url_ne_empty_of_http hhttp
  have hcond : (!strStarts url "http://" && !strStarts url "https://") = false := by
    rcases hhttp with h' | h' <;> simp [h']
  have hdd : download_document net entry_date elapsed url endpoint fs =
      (some { resource := calculate_sha1 body, endpoint_url := url,
              entry_date := entry_date, status := toString status,
              elapsed := elapsed, content_type := ct,
              bytes := toString body.length },
       [.writeResource (calculate_sha1 body) body,
        .writeLog endpoint
          { resource := calculate_sha1 body, endpoint_url := url,
            entry_date := entry_date, status := toString status,
            elapsed := elapsed, content_type := ct,
            bytes := toString body.length },
        create_endpoint_hardlink endpoint (calculate_sha1 body) body ct url],
       1) := by
    simp only [download_document, if_neg hu, hcond, Bool.false_eq_true, if_false,
      hlog, hnet]
  refine ⟨_, by rw [hdd], rfl, by rw [hdd], ?_, ?_⟩ <;>
    simp only [afterDownload, hdd] <;>
    simp [applyEvents, applyEvent, create_endpoint_hardlink]

/-- C2: downloading two distinct URLs whose bodies are byte-identical stores
the body once, under the shared SHA-1 content hash, and writes two distinct
ledger records — keyed by the SHA-256 of each URL — that both reference that
hash. The resource map afterwards differs from the initial one at exactly the
shared content hash. -/
theorem content_dedup_two_urls (net : String → NetResult)
    (d1 e1 d2 e2 urlA urlB : String) (fs0 : FS)
    (body : List Nat) (stA stB : Nat) (ctA ctB : String)
    (hA : strStarts urlA "http://" = true ∨ strStarts urlA "https://" = true)
    (hB : strStarts urlB "http://" = true ∨ strStarts urlB "https://" = true)
    (hlogA : fs0.log (calculate_sha256 urlA) = none)
    (hlogB : fs0.log (calculate_sha256 urlB) = none)
    (hne : calculate_sha256 urlA ≠ calculate_sha256 urlB)
    (hnetA : net urlA = .ok body stA ctA)
    (hnetB : net urlB = .ok body stB ctB) :
    ∃ eA eB : LogEntry,
      (download_document net d1 e1 urlA (calculate_sha256 urlA) fs0).1 = some eA ∧
      (download_document net d2 e2 urlB (calculate_sha256 urlB)
        (afterDownload net d1 e1 urlA (calculate_sha256 urlA) fs0)).1 = some eB ∧
      eA.resource = calculate_sha1 body ∧
      eB.resource = calculate_sha1 body ∧
      (afterDownload net d2 e2 urlB (calculate_sha256 urlB)
        (afterDownload net d1 e1 urlA (calculate_sha256 urlA) fs0)).log
          (calculate_sha256 urlA) = some eA ∧
      (afterDownload net d2 e2 urlB (calculate_sha256 urlB)
        (afterDownload net d1 e1 urlA (calculate_sha256 urlA) fs0)).log
          (calculate_sha256 urlB) = some eB ∧
      (∀ k, (afterDownload net d2 e2 urlB (calculate_sha256 urlB)
        (afterDownload net d1 e1 urlA (calculate_sha256 urlA) fs0)).resource k
          = if k = calculate_sha1 body then some body else fs0.resource k) := by
  obtain ⟨eA, hA1, hA2, _, hA4, hA5⟩ :=
    download_document_success_state net d1 e1 urlA (calculate_sha256 urlA) fs0
      body stA ctA hA hlogA hnetA
  have hne' : ¬ (calculate_sha256 urlB = calculate_sha256 urlA) :=
    fun h => hne h.symm
  have hlogB1 : (afterDownload net d1 e1 urlA (calculate_sha256 urlA) fs0).log
      (calculate_sha256 urlB) = none := by
    rw [hA4]; simp [upd, hne', hlogB]
  obtain ⟨eB, hB1, hB2, _, hB4, hB5⟩ :=
    download_document_success_state net d2 e2 urlB (calculate_sha256 urlB)
      (afterDownload net d1 e1 urlA (calculate_sha256 urlA) fs0)
      body stB ctB hB hlogB1 hnetB
  refine ⟨eA, eB, hA1, hB1, hA2, hB2, ?_, ?_, ?_⟩
  · rw [hB4, hA4]
    simp [upd, hne, hne']
  · rw [hB4]
    simp [upd]
  · intro k
    rw [hB5, hA5]
    by_cases hk : k = calculate_sha1 body <;> simp [upd, hk]

set_option maxRecDepth 40000 in
/-- C2 witness: two URLs on different hosts answered with the same `%PDF`
body share one resource entry and get two ledger records referencing it. -/
theorem content_dedup_two_urls_witness :
    ∃ eA eB : LogEntry,
      (download_document (fun _ => .ok [37, 80, 68, 70] 200 "application/pdf")
        "d1" "0.1" "https://a.example.gov.uk/plan.pdf"
        (calculate_sha256 "https://a.example.gov.uk/plan.pdf") emptyFS).1 = some eA ∧
      (download_document (fun _ => .ok [37, 80, 68, 70] 200 "application/pdf")
        "d2" "0.2" "https://b.example.gov.uk/plan.pdf"
        (calculate_sha256 "https://b.example.gov.uk/plan.pdf")
        (afterDownload (fun _ => .ok [37, 80, 68, 70] 200 "application/pdf")
          "d1" "0.1" "https://a.example.gov.uk/plan.pdf"
          (calculate_sha256 "https://a.example.gov.uk/plan.pdf") emptyFS)).1 = some eB ∧
      eA.resource = calculate_sha1 [37, 80, 68, 70] ∧
      eB.resource = calculate_sha1 [37, 80, 68, 70] ∧
      (afterDownload (fun _ => .ok [37, 80, 68, 70] 200 "application/pdf")
        "d2" "0.2" "https://b.example.gov.uk/plan.pdf"
        (calculate_sha256 "https://b.example.gov.uk/plan.pdf")
        (afterDownload (fun _ => .ok [37, 80, 68, 70] 200 "application/pdf")
          "d1" "0.1" "https://a.example.gov.uk/plan.pdf"
          (calculate_sha256 "https://a.example.gov.uk/plan.pdf") emptyFS)).log
        (calculate_sha256 "https://a.example.gov.uk/plan.pdf") = some eA ∧
      (afterDownload (fun _ => .ok [37, 80, 68, 70] 200 "application/pdf")
        "d2" "0.2" "https://b.example.gov.uk/plan.pdf"
        (calculate_sha256 "https://b.example.gov.uk/plan.pdf")
        (afterDownload (fun _ => .ok [37, 80, 68, 70] 200 "application/pdf")
          "d1" "0.1" "https://a.example.gov.uk/plan.pdf"
          (calculate_sha256 "https://a.example.gov.uk/plan.pdf") emptyFS)).log
        (calculate_sha256 "https://b.example.gov.uk/plan.pdf") = some eB ∧
      (∀ k, (afterDownload (fun _ => .ok [37, 80, 68, 70] 200 "application/pdf")
        "d2" "0.2" "https://b.example.gov.uk/plan.pdf"
        (calculate_sha256 "https://b.example.gov.uk/plan.pdf")
        (afterDownload (fun _ => .ok [37, 80, 68, 70] 200 "application/pdf")
          "d1" "0.1" "https://a.example.gov.uk/plan.pdf"
          (calculate_sha256 "https://a.example.gov.uk/plan.pdf") emptyFS)).resource k
          = if k = calculate_sha1 [37, 80, 68, 70] then some [37, 80, 68, 70]
            else emptyFS.resource k) :=
  content_dedup_two_urls (fun _ => .ok [37, 80, 68, 70] 200 "application/pdf")
    "d1" "0.1" "d2" "0.2" "https://a.example.gov.uk/plan.pdf"
    "https://b.example.gov.uk/plan.pdf" emptyFS [37, 80, 68, 70] 200 200
    "application/pdf" "application/pdf" (Or.inr (by decide)) (Or.inr (by decide))
    rfl rfl (by decide) rfl rfl

/-- The anchor loop only ever appends: accumulated entries stay in the result. -/
theorem extract_go_mono (url : String) :
    ∀ (ls : List Link) (acc : List DocLink) (d : DocLink),
      d ∈ acc → d ∈ extract_document_links_go url ls acc := by
  intro ls
  induction ls with
  | nil => intro acc d hd; simpa [extract_document_links_go] using hd
  | cons l ls ih =>
    intro acc d hd
    simp only [extract_document_links_go]
    split
    · split
      · split
        · exact ih acc d hd
        · exact ih _ d (List.mem_append_left _ hd)
      · exact ih acc d hd
    · exact ih acc d hd

/-- Every entry the anchor loop produces either was accumulated already or is
the normalisation of some processed anchor and starts with `http`. -/
theorem extract_go_origin (url : String) :
    ∀ (ls : List Link) (acc : List DocLink) (d : DocLink),
      d ∈ extract_document_links_go url ls acc →
      d ∈ acc ∨ ∃ l ∈ ls, d.url = candidate_url url l
        ∧ strStarts d.url "http" = true := by
  intro ls
  induction ls with
  | nil =>
    intro acc d hd
    simp only [extract_document_links_go] at hd
    exact Or.inl hd
  | cons l ls ih =>
    intro acc d hd
    simp only [extract_document_links_go] at hd
    have lift : d ∈ acc ∨ (∃ l2 ∈ ls, d.url = candidate_url url l2
        ∧ strStarts d.url "http" = true) →
        d ∈ acc ∨ ∃ l2 ∈ l :: ls, d.url = candidate_url url l2
        ∧ strStarts d.url "http" = true := by
      rintro (h | ⟨l2, hl2, hu⟩)
      · exact Or.inl h
      · exact Or.inr ⟨l2, List.mem_cons_of_mem _ hl2, hu⟩
    split at hd
    · split at hd
      next h2 =>
        split at hd
        · exact lift (ih _ d hd)
        · rcases ih _ d hd with h | ⟨l2, hl2, hu⟩
          · rcases List.mem_append.1 h with h | h
            · exact Or.inl h
            · simp only [List.mem_singleton] at h
              subst h
              refine Or.inr ⟨l, List.mem_cons_self l ls, ?_, ?_⟩
              · with_reducible rfl
              · have h2' := h2
                rw [Bool.and_eq_true] at h2'
                with_reducible exact h2'.1
          · exact Or.inr ⟨l2, List.mem_cons_of_mem _ hl2, hu⟩
      · exact lift (ih _ d hd)
    · exact lift (ih _ d hd)

/-- The anchor loop never produces two entries with the same normalised URL. -/
theorem extract_go_pairwise (url : String) :
    ∀ (ls : List Link) (acc : List DocLink),
      acc.Pairwise (fun a b => a.url ≠ b.url) →
      (extract_document_links_go url ls acc).Pairwise (fun a b => a.url ≠ b.url) := by
  intro ls
  induction ls with
  | nil => intro acc h; simpa [extract_document_links_go] using h
  | cons l ls ih =>
    intro acc hacc
    simp only [extract_document_links_go]
    split
    · split
      next h2 =>
        split
        · exact ih acc hacc
        · refine ih _ (List.pairwise_append.2 ⟨hacc, List.pairwise_singleton _ _, ?_⟩)
          intro a ha b hb
          simp only [List.mem_singleton] at hb
          subst hb
          have h2' := h2
          rw [Bool.and_eq_true] at h2'
          have hany := h2'.2
          simp only [Bool.not_eq_eq_eq_not, Bool.not_true, List.any_eq_false] at hany
          intro hEq
          have := hany a ha
          simp [hEq] at this
      · exact ih acc hacc
    · exact ih acc hacc

/-- A normalised URL on which the listing filter fires (listing page, not
clearly a file) never enters the result. -/
theorem extract_go_excluded (url u : String)
    (hlist : is_listing_page u = true) (hfile : is_clearly_file u = false) :
    ∀ (ls : List Link) (acc : List DocLink),
      (∀ d ∈ acc, d.url ≠ u) →
      ∀ d ∈ extract_document_links_go url ls acc, d.url ≠ u := by
  intro ls
  induction ls with
  | nil => intro acc hacc d hd; exact hacc d (by simpa [extract_document_links_go] using hd)
  | cons l ls ih =>
    intro acc hacc d hd
    simp only [extract_document_links_go] at hd
    split at hd
    · split at hd
      · split at hd
        next h3 => exact ih acc hacc d hd
        next h3 =>
          refine ih _ ?_ d hd
          intro d2 hd2
          rcases List.mem_append.1 hd2 with h | h
          · exact hacc d2 h
          · simp only [List.mem_singleton] at h
            subst h
            intro hEq
            have hEq' : candidate_url url l = u := by with_reducible exact hEq
            rw [hEq'] at h3
            simp [hlist, hfile] at h3
      · exact ih acc hacc d hd
    · exact ih acc hacc d hd

/-- An anchor that passes the document test, normalises to an `http` URL, and
is clearly a file, always contributes its URL to the result. -/
theorem extract_go_kept (url : String) :
    ∀ (ls : List Link) (acc : List DocLink) (l : Link), l ∈ ls →
      (is_document_link l.href l.text
        || doc_keywords.any fun kw => strContains (strLower l.text) kw) = true →
      strStarts (candidate_url url l) "http" = true →
      is_clearly_file (candidate_url url l) = true →
      ∃ d ∈ extract_document_links_go url ls acc,
        d.url = candidate_url url l := by
  intro ls
  induction ls with
  | nil => intro acc l hl; exact absurd hl (List.not_mem_nil l)
  | cons l0 ls ih =>
    intro acc l hl hcond hhttp hfile
    rcases List.mem_cons.1 hl with rfl | hl
    · simp only [extract_document_links_go, hcond, if_true]
      by_cases hany : acc.any (fun d => d.url == candidate_url url l) = true
      · obtain ⟨d, hd, hdu⟩ := List.any_eq_true.1 hany
        rw [show (strStarts (candidate_url url l) "http"
            && !acc.any (fun d => d.url == candidate_url url l)) = false by
          simp [hany]]
        simp only [Bool.false_eq_true, if_false]
        exact ⟨d, extract_go_mono url ls acc d hd, by simpa using hdu⟩
      · rw [show (strStarts (candidate_url url l) "http"
            && !acc.any (fun d => d.url == candidate_url url l)) = true by
          simp [hhttp, Bool.eq_false_iff.2 hany]]
        rw [show (is_listing_page (candidate_url url l)
            && !is_clearly_file (candidate_url url l)) = false by
          simp [hfile]]
        simp only [if_true, Bool.false_eq_true, if_false]
        refine ⟨⟨candidate_url url l, l.text,
          classify_document_type (candidate_url url l) l.text, url⟩,
          extract_go_mono url ls _ _ (List.mem_append_right _ (List.mem_singleton.2 rfl)),
          by with_reducible rfl⟩
    · simp only [extract_document_links_go]
      split
      · split
        · split
          · exact ih acc l hl hcond hhttp hfile
          · exact ih _ l hl hcond hhttp hfile
        · exact ih acc l hl hcond hhttp hfile
      · exact ih acc l hl hcond hhttp hfile

/-- C3: a link whose normalised URL matches the listing-page heuristics is
excluded from the document-candidate list unless the URL also matches the
definitely-a-file override (a `.pdf`/`.doc`/`.docx` ending, a direct-download
path shape, or a download-handler query), in which case the override wins and
the link is kept. -/
theorem listing_filter_override (url : String) (links : List Link) (u : String) :
    (is_listing_page u = true → is_clearly_file u = false →
      ∀ d ∈ extract_document_links url links, d.url ≠ u) ∧
    (∀ l ∈ links,
      (is_document_link l.href l.text
        || doc_keywords.any fun kw => strContains (strLower l.text) kw) = true →
      strStarts (candidate_url url l) "http" = true →
      is_clearly_file (candidate_url url l) = true →
      ∃ d ∈ extract_document_links url links,
        d.url = candidate_url url l) := by
  constructor
  · intro hlist hfile
    exact extract_go_excluded url u hlist hfile links [] (by simp)
  · intro l hl hcond hhttp hfile
    exact extract_go_kept url links [] l hl hcond hhttp hfile

/-- C3 witness: on a Birmingham-style page, the listing URL
`/info/20054/local_plan_documents` is excluded while the same URL with `.pdf`
appended is included. -/
theorem listing_filter_override_witness :
    (∀ d ∈ extract_document_links "https://www.birmingham.gov.uk/planning"
        [⟨"/info/20054/local_plan_documents", "Local Plan Documents"⟩,
         ⟨"/info/20054/local_plan_documents.pdf", "Local Plan Documents"⟩],
      d.url ≠ "https://www.birmingham.gov.uk/info/20054/local_plan_documents") ∧
    (∃ d ∈ extract_document_links "https://www.birmingham.gov.uk/planning"
        [⟨"/info/20054/local_plan_documents", "Local Plan Documents"⟩,
         ⟨"/info/20054/local_plan_documents.pdf", "Local Plan Documents"⟩],
      d.url = candidate_url "https://www.birmingham.gov.uk/planning"
        ⟨"/info/20054/local_plan_documents.pdf", "Local Plan Documents"⟩) :=
  have h := listing_filter_override "https://www.birmingham.gov.uk/planning"
    [⟨"/info/20054/local_plan_documents", "Local Plan Documents"⟩,
     ⟨"/info/20054/local_plan_documents.pdf", "Local Plan Documents"⟩]
    "https://www.birmingham.gov.uk/info/20054/local_plan_documents"
  ⟨h.1 (by decide) (by decide),
   h.2 ⟨"/info/20054/local_plan_documents.pdf", "Local Plan Documents"⟩
     (by decide) (by decide) (by decide) (by decide)⟩

/-- C10: the document-candidate list contains no two entries with the same
normalised URL, and every entry's URL starts with `http` and is the
normalisation (fragment dropped, rebuilt as scheme://netloc+path with the
query appended only when present) of the join of the page URL with some
anchor's href. -/
theorem extract_links_normalized (url : String) (links : List Link) :
    (extract_document_links url links).Pairwise (fun a b => a.url ≠ b.url) ∧
    ∀ d ∈ extract_document_links url links,
      strStarts d.url "http" = true ∧
      ∃ l ∈ links, d.url = candidate_url url l := by
  constructor
  · exact extract_go_pairwise url links [] (List.Pairwise.nil)
  · intro d hd
    rcases extract_go_origin url links [] d hd with h | ⟨l, hl, hu, hh⟩
    · exact absurd h (List.not_mem_nil d)
    · exact ⟨hh, l, hl, hu⟩

/-- C10 witness: on a two-anchor page (one with a fragment, one duplicate) the
result is duplicate-free and each entry is the http normalisation of an
anchor. -/
theorem extract_links_normalized_witness :
    (extract_document_links "https://www.x.gov.uk/planning"
      [⟨"/docs/plan.pdf#summary", "Local Plan"⟩,
       ⟨"/docs/plan.pdf", "Local Plan again"⟩]).Pairwise
        (fun a b => a.url ≠ b.url) ∧
    (strStarts (DocLink.mk "https://www.x.gov.uk/docs/plan.pdf" "Local Plan"
        "local-plan" "https://www.x.gov.uk/planning").url "http" = true ∧
      ∃ l ∈ [(⟨"/docs/plan.pdf#summary", "Local Plan"⟩ : Link),
             ⟨"/docs/plan.pdf", "Local Plan again"⟩],
        (DocLink.mk "https://www.x.gov.uk/docs/plan.pdf" "Local Plan"
          "local-plan" "https://www.x.gov.uk/planning").url
          = candidate_url "https://www.x.gov.uk/planning" l) :=
  have h := extract_links_normalized "https://www.x.gov.uk/planning"
    [⟨"/docs/plan.pdf#summary", "Local Plan"⟩,
     ⟨"/docs/plan.pdf", "Local Plan again"⟩]
  ⟨h.1,
   h.2 ⟨"https://www.x.gov.uk/docs/plan.pdf", "Local Plan",
        "local-plan", "https://www.x.gov.uk/planning"⟩ (by decide)⟩

set_option maxRecDepth 100000 in
/-- C5 counterexample: tier 1 returns 403 and tier 2 returns status 200, yet
the fetch fails — the tier-2 response is not HTML, so a tier-2 200 does not by
itself yield success as claimed. -/
theorem fetch_tier2_200_not_success_counterexample :
    net403 "https://www.x.gov.uk/planning" = .resp 403 "" "" ∧
    netPdf200 "https://www.x.gov.uk/planning" = .resp 200 "application/pdf" body300 ∧
    fetch_page_content id net403 netPdf200 "https://www.x.gov.uk/planning"
      = (("", false), 1) := by
  decide

/-- C5 (amended): the fetcher is two-tiered. A tier-1 403 re-issues the fetch
exactly once through the challenge-solving tier, whose 200 response is then
content-gated (it yields success exactly when it is HTML whose cleaned text
exceeds 200 characters); 403 on both tiers is a failure; and tier 2 is never
consulted on a tier-1 exception or non-403 status. -/
theorem fetch_two_tier (soupText : String → String)
    (net1 net2 net2' : String → FetchOutcome) (url : String) (max_length : Nat) :
    (∀ ct1 b1 ct2 b2, net1 url = .resp 403 ct1 b1 → net2 url = .resp 200 ct2 b2 →
      fetch_page_content soupText net1 net2 url max_length
        = (process_response soupText max_length ct2 b2, 1)) ∧
    (∀ ct b, strContains (strLower ct) "text/html" = true →
      200 < (clean_lines (soupText b)).length →
      (clean_lines (soupText b)).length ≤ max_length →
      process_response soupText max_length ct b = (clean_lines (soupText b), true)) ∧
    (∀ ct1 b1 ct2 b2, net1 url = .resp 403 ct1 b1 → net2 url = .resp 403 ct2 b2 →
      fetch_page_content soupText net1 net2 url max_length = (("", false), 1)) ∧
    (net1 url = .exn →
      fetch_page_content soupText net1 net2 url max_length = (("", false), 0)) ∧
    (∀ st ct b, net1 url = .resp st ct b → st ≠ 403 →
      fetch_page_content soupText net1 net2 url max_length
        = fetch_page_content soupText net1 net2' url max_length ∧
      (fetch_page_content soupText net1 net2 url max_length).2 = 0) := by
  refine ⟨?_, ?_, ?_, ?_, ?_⟩
  · intro ct1 b1 ct2 b2 h1 h2
    simp only [fetch_page_content, h1, h2]
    norm_num
  · intro ct b hct hlen hml
    have hnottrunc : ¬ (clean_lines (soupText b)).length > max_length := by omega
    simp only [process_response, hct, Bool.not_true, Bool.false_eq_true, if_false,
      if_neg hnottrunc, if_pos hlen]
  · intro ct1 b1 ct2 b2 h1 h2
    simp only [fetch_page_content, h1, h2]
    norm_num
  · intro h1
    simp only [fetch_page_content, h1]
  · intro st ct b h1 hne
    simp only [fetch_page_content, h1]
    by_cases h4 : 400 ≤ st ∧ st < 600
    · rw [if_pos h4, if_pos h4, if_neg hne, if_neg hne]
      exact ⟨rfl, rfl⟩
    · rw [if_neg h4, if_neg h4]
      exact ⟨rfl, rfl⟩

set_option maxRecDepth 100000 in
/-- C5 witness: 403 then HTML 200 succeeds with the cleaned text; 403 on both
tiers fails with one tier-2 call; a tier-1 connection error and a tier-1 500
never consult tier 2. -/
theorem fetch_two_tier_witness :
    (fetch_page_content id net403 netHtml200 "https://www.x.gov.uk/planning" 50000
      = (process_response id 50000 "text/html" body300, 1)) ∧
    (process_response id 50000 "text/html" body300 = (clean_lines (id body300), true)) ∧
    (fetch_page_content id net403 net403 "https://www.x.gov.uk/planning" 50000
      = (("", false), 1)) ∧
    (fetch_page_content id (fun _ => .exn) netHtml200 "https://www.x.gov.uk/planning" 50000
      = (("", false), 0)) ∧
    (fetch_page_content id (fun _ => .resp 500 "" "") netHtml200
        "https://www.x.gov.uk/planning" 50000
      = fetch_page_content id (fun _ => .resp 500 "" "") netPdf200
        "https://www.x.gov.uk/planning" 50000 ∧
     (fetch_page_content id (fun _ => .resp 500 "" "") netHtml200
        "https://www.x.gov.uk/planning" 50000).2 = 0) :=
  have hA := fetch_two_tier id net403 netHtml200 netHtml200
    "https://www.x.gov.uk/planning" 50000
  have hB := fetch_two_tier id net403 net403 net403
    "https://www.x.gov.uk/planning" 50000
  have hC := fetch_two_tier id (fun _ => .exn) netHtml200 netHtml200
    "https://www.x.gov.uk/planning" 50000
  have hD := fetch_two_tier id (fun _ => .resp 500 "" "") netHtml200 netPdf200
    "https://www.x.gov.uk/planning" 50000
  ⟨hA.1 "" "" "text/html" body300 rfl rfl,
   hA.2.1 "text/html" body300 (by decide) (by decide) (by decide),
   hB.2.2.1 "" "" "" "" rfl rfl,
   hC.2.2.2.1 rfl,
   hD.2.2.2.2 500 "" "" rfl (by decide)⟩

/-- Decomposition of the duplicate-skipping fold `construct_likely_urls` uses
to append the guessed domains: it extends the starting list with fresh
elements of the folded list only. -/
theorem dedup_fold_decomp (l : List String) :
    ∀ ds0 : List String, ∃ extra,
      l.foldl (fun ds dm => if ds.contains dm then ds else ds ++ [dm]) ds0
        = ds0 ++ extra
      ∧ ∀ x ∈ extra, x ∈ l ∧ ds0.contains x = false := by
  induction l with
  | nil => intro ds0; exact ⟨[], by simp, by simp⟩
  | cons a l ih =>
    intro ds0
    simp only [List.foldl_cons]
    by_cases hc : ds0.contains a = true
    · rw [if_pos hc]
      obtain ⟨extra, he, hp⟩ := ih ds0
      exact ⟨extra, he, fun x hx =>
        ⟨List.mem_cons_of_mem _ (hp x hx).1, (hp x hx).2⟩⟩
    · rw [if_neg hc]
      obtain ⟨extra, he, hp⟩ := ih (ds0 ++ [a])
      refine ⟨a :: extra, by simpa using he, ?_⟩
      intro x hx
      rcases List.mem_cons.1 hx with rfl | hx
      · exact ⟨List.mem_cons_self x l, Bool.eq_false_iff.2 fun h => hc h⟩
      · refine ⟨List.mem_cons_of_mem _ (hp x hx).1, ?_⟩
        have h2 := (hp x hx).2
        by_contra hx0
        have hx1 : ds0.contains x = true := by
          cases h : ds0.contains x
          · exact absurd h hx0
          · rfl
        have : (ds0 ++ [a]).contains x = true := by
          have hx2 : x ∈ ds0 := by simpa using hx1
          simp [List.mem_append, hx2]
        rw [this] at h2
        exact Bool.true_eq_false.mp h2

/-- C6: with no joint-plan override, the candidate list opens with the
official-domain block — the full path list (curated paths first, then generic)
on the official website's domain, which includes `https://<domain>/planning` —
and everything after it is built from a guessed fallback domain distinct from
the official one; with a configured joint plan, the configured joint-plan URL
is the very first candidate. -/
theorem candidate_priority_order (jp : String → Option JointPlanInfo)
    (org_name w code d : String)
    (hcode : code ≠ "") (hd : (urlparse w).netloc = d) (hdne : d ≠ "") :
    (jp code = none →
      ∃ rest,
        construct_likely_urls jp org_name (some w) (some code)
          = domain_urls org_name d (paths_for (some code)) ++ rest ∧
        (∀ r ∈ rest, ∃ dom, dom ∈ fallback_domains org_name ∧ dom ≠ d ∧
          ∃ p ∈ paths_for (some code), r.url = "https://" ++ dom ++ p) ∧
        "https://" ++ d ++ "/planning"
          ∈ (domain_urls org_name d (paths_for (some code))).map (fun r => r.url)) ∧
    (∀ info pw, jp code = some info → info.joint_plan_website = some pw →
      pw ≠ "" → (urlparse pw).netloc ≠ "" →
      (construct_likely_urls jp org_name (some w) (some code)).head?
        = some ⟨"Joint Local Plan: " ++ info.joint_plan_name, pw, ""⟩) := by
  constructor
  · intro hjp
    obtain ⟨extra, heq, hextra⟩ := dedup_fold_decomp (fallback_domains org_name) [d]
    refine ⟨extra.flatMap fun dom => domain_urls org_name dom (paths_for (some code)),
      ?_, ?_, ?_⟩
    · simp only [construct_likely_urls, hjp, hd, if_pos hcode, List.contains_nil,
        Bool.not_false, Bool.and_true, List.nil_append]
      rw [if_pos (by simp [hdne])]
      rw [heq]
      simp [List.flatMap_append]
    · intro r hr
      obtain ⟨dom, hdom, hrF⟩ := List.mem_flatMap.1 hr
      obtain ⟨hfb, hcon⟩ := hextra dom hdom
      refine ⟨dom, hfb, ?_, ?_⟩
      · intro hEq
        subst hEq
        simp at hcon
      · obtain ⟨p, hp, hrp⟩ := List.mem_map.1 hrF
        exact ⟨p, hp, by rw [← hrp]⟩
    · have hp : "/planning" ∈ paths_for (some code) :=
        List.mem_append_right _ (by decide)
      exact List.mem_map.2
        ⟨⟨org_name ++ " Local Plan", "https://" ++ d ++ "/planning",
          "Constructed URL for " ++ org_name⟩,
         List.mem_map.2 ⟨"/planning", hp, rfl⟩, rfl⟩
  · intro info pw hjp hpw hpwne hdom
    simp only [construct_likely_urls, hjp, hpw, if_pos hcode, if_pos hpwne]
    rw [if_pos (by simpa using hdom)]
    simp [List.head?]

set_option maxRecDepth 8000 in
/-- C6 witness: for Example Borough Council with official website
`https://www.example.gov.uk` and no joint plan, the candidate list opens with
the official-domain block (containing `/planning`) and everything after it is
guessed-domain; with a configured joint plan, that URL comes first. -/
theorem candidate_priority_order_witness :
    (∃ rest,
      construct_likely_urls (fun _ => none) "Example Borough Council"
        (some "https://www.example.gov.uk") (some "local-authority:EXA")
        = domain_urls "Example Borough Council" "www.example.gov.uk"
            (paths_for (some "local-authority:EXA")) ++ rest ∧
      (∀ r ∈ rest, ∃ dom, dom ∈ fallback_domains "Example Borough Council" ∧
        dom ≠ "www.example.gov.uk" ∧
        ∃ p ∈ paths_for (some "local-authority:EXA"),
          r.url = "https://" ++ dom ++ p) ∧
      "https://" ++ "www.example.gov.uk" ++ "/planning"
        ∈ (domain_urls "Example Borough Council" "www.example.gov.uk"
            (paths_for (some "local-authority:EXA"))).map (fun r => r.url)) ∧
    (construct_likely_urls jpJointC6 "Example Borough Council"
        (some "https://www.example.gov.uk") (some "local-authority:EXA")).head?
      = some ⟨"Joint Local Plan: " ++ "Common Plan",
              "https://www.commonplan.org/plan", ""⟩ :=
  have h1 := candidate_priority_order (fun _ => none) "Example Borough Council"
    "https://www.example.gov.uk" "local-authority:EXA" "www.example.gov.uk"
    (by decide) (by decide) (by decide)
  have h2 := candidate_priority_order jpJointC6 "Example Borough Council"
    "https://www.example.gov.uk" "local-authority:EXA" "www.example.gov.uk"
    (by decide) (by decide) (by decide)
  ⟨h1.1 rfl,
   h2.2 ⟨some "https://www.commonplan.org/plan", "Common Plan"⟩
     "https://www.commonplan.org/plan" (by decide) rfl (by decide) (by decide)⟩

end LocalPlan
